import Mathlib

/-!
Verification of the django-ca certificate profile / ACME state machine core.

The definitions below are a shallow embedding of the repository's code:

* `acmeValidateChallenge` embeds the Celery task `acme_validate_challenge`
  from `ca/django_ca/tasks.py` (guard checks, http-01 / dns-01 dispatch and
  the cascading status updates on challenge, authorization and order).
* `http01Valid` embeds the http-01 response check from the same task.
* `getExtensions` embeds `Profile._get_extensions` from
  `ca/django_ca/profiles.py`, `updateAuthorityInformationAccess` embeds
  `Profile._update_authority_information_access`, `updateCnFromSan` embeds
  `Profile._update_cn_from_san`, and `createCertPipeline` embeds the
  subject / extension resolution steps of `Profile.create_cert`.
* `mergeX509Names` and `updateAccount` model parts of the repository that
  are only witnessed here by their tests (`django_ca.utils.merge_x509_names`
  and the ACME account-update view); their doc comments state exactly what
  is modelled and from which source of truth.

Python dictionaries keyed by extension OID are embedded as association
lists with unique keys (`List (Oid × _)` together with `List.lookup`);
Python lists become Lean lists, byte strings become `List Nat`, and the
Django ORM rows touched by a task invocation are gathered into an explicit
state record that the task maps to a new state.
-/

/-! ## ACME entities and statuses (rows touched by `acme_validate_challenge`) -/

/-- Status values used by the ACME models (`django_ca.models`): the subset of
RFC 8555 states that challenge validation reads or writes. -/
inductive AcmeStatus where
  | pending
  | processing
  | valid
  | invalid
  | ready
  | deactivated
deriving DecidableEq, Repr

/-- Challenge types known to `acme_validate_challenge`: http-01 and dns-01 are
dispatched, tls-alpn-01 exists as a type constant but is unsupported. -/
inductive ChallengeType where
  | http01
  | dns01
  | tlsAlpn01
deriving DecidableEq, Repr

/-- The order row as read and written by `acme_validate_challenge`. -/
structure AcmeOrder where
  status : AcmeStatus
deriving DecidableEq, Repr

/-- An authorization row: primary key, status, and the `usable` property
(computed in `django_ca.models` from account/order/authorization state, read
here as a stored flag because the task only ever tests it as a boolean). -/
structure AcmeAuthorization where
  pk : Nat
  status : AcmeStatus
  usable : Bool
deriving DecidableEq, Repr

/-- The challenge row: status, type and the validation timestamp. -/
structure AcmeChallenge where
  status : AcmeStatus
  type : ChallengeType
  validated : Option Nat
deriving DecidableEq, Repr

/-- The database rows visible to one `acme_validate_challenge` invocation: the
challenge, its owning authorization (`challenge.auth`), the owning order, and
all authorization rows of that order as they stand in the database at the
moment of the task's status query (the query runs before any row is saved, so
`orderAuths` carries the pre-validation statuses; the row for `auth` itself may
appear in it and is excluded by primary key, exactly as in the task). -/
structure ChallengeValidationState where
  challenge : AcmeChallenge
  auth : AcmeAuthorization
  order : AcmeOrder
  orderAuths : List AcmeAuthorization
deriving DecidableEq, Repr

/-- Outcome of the http-01 request in the task: either a response with a
status code and a body (of which the task reads at most `len(expected) + 1`
bytes), or any network/parsing exception, which the task catches. -/
inductive HttpFetchResult where
  | response (statusCode : Nat) (body : List Nat)
  | failure
deriving DecidableEq, Repr

/-- External inputs of one validation: the http-01 fetch outcome and the
boolean returned by the dns-01 prober (`validate_dns_01`). -/
structure ValidationEnv where
  httpFetch : HttpFetchResult
  dns01Result : Bool
deriving DecidableEq, Repr

/-- The http-01 response check from `acme_validate_challenge`: the body is
fetched only for status 200, at most `len(expected) + 1` bytes are read
(`response.raw.read(len(expected) + 1)`), and the challenge is valid exactly
when the bytes read equal `expected`. -/
def http01Valid (statusCode : Nat) (body : List Nat) (expected : List Nat) : Bool :=
  statusCode == 200 && body.take (expected.length + 1) == expected

/-- The `challenge_valid` flag computed by `acme_validate_challenge`: `false`
by default, set by the http-01 check (with exceptions caught and counted as
not valid) or by the dns-01 prober; unsupported types only log an error and
leave the flag `false`. -/
def computeChallengeValid (c : AcmeChallenge) (expected : List Nat) (env : ValidationEnv) : Bool :=
  match c.type with
  | ChallengeType.http01 =>
    match env.httpFetch with
    | HttpFetchResult.response s b => http01Valid s b expected
    | HttpFetchResult.failure => false
  | ChallengeType.dns01 => env.dns01Result
  | ChallengeType.tlsAlpn01 => false

/-- The task `acme_validate_challenge` from `ca/django_ca/tasks.py` as a state
transition. Guards (ACME disabled, challenge not in `processing`, authorization
not usable) return the state unchanged. On a valid outcome the challenge and
authorization become `valid` and the order becomes `ready` exactly when the
fresh query `AcmeAuthorization.objects.filter(order=...)` minus rows with
status `valid` minus the current authorization's primary key is empty. On an
invalid outcome challenge, authorization and order all become `invalid`. -/
def acmeValidateChallenge (caEnableAcme : Bool) (st : ChallengeValidationState)
    (expected : List Nat) (env : ValidationEnv) (now : Nat) : ChallengeValidationState :=
  if caEnableAcme = false then st
  else if st.challenge.status ≠ AcmeStatus.processing then st
  else if st.auth.usable = false then st
  else
    let challengeValid := computeChallengeValid st.challenge expected env
    if challengeValid then
      let blockingAuths :=
        (st.orderAuths.filter (fun a => a.status != AcmeStatus.valid)).filter
          (fun a => a.pk != st.auth.pk)
      let newOrder :=
        if blockingAuths.isEmpty then { st.order with status := AcmeStatus.ready }
        else st.order
      { st with
        challenge := { st.challenge with status := AcmeStatus.valid, validated := some now }
        auth := { st.auth with status := AcmeStatus.valid }
        order := newOrder }
    else
      { st with
        challenge := { st.challenge with status := AcmeStatus.invalid }
        auth := { st.auth with status := AcmeStatus.invalid }
        order := { st.order with status := AcmeStatus.invalid } }

/-! ## Lemmas about challenge validation -/

theorem take_succ_length_eq_iff (body expected : List Nat) :
    body.take (expected.length + 1) = expected ↔ body = expected := by
  constructor
  · intro h
    by_cases hl : body.length ≤ expected.length + 1
    · rw [List.take_of_length_le hl] at h
      exact h
    · exfalso
      have hlen := congrArg List.length h
      rw [List.length_take] at hlen
      omega
  · intro h
    subst h
    exact List.take_of_length_le (Nat.le_succ _)

theorem http01Valid_eq_true_iff (s : Nat) (b expected : List Nat) :
    http01Valid s b expected = true ↔ (s = 200 ∧ b = expected) := by
  unfold http01Valid
  rw [Bool.and_eq_true, beq_iff_eq, beq_iff_eq, take_succ_length_eq_iff]

theorem blocking_empty_iff (l : List AcmeAuthorization) (pk0 : Nat) :
    ((l.filter (fun a => a.status != AcmeStatus.valid)).filter
        (fun a => a.pk != pk0)).isEmpty = true ↔
      ∀ a ∈ l, a.pk ≠ pk0 → a.status = AcmeStatus.valid := by
  rw [List.isEmpty_iff, List.filter_eq_nil_iff]
  constructor
  · intro h a ha hpk
    by_contra hs
    exact h a (List.mem_filter.mpr ⟨ha, bne_iff_ne.mpr hs⟩) (bne_iff_ne.mpr hpk)
  · intro h a ha hpk
    have hmem := List.mem_filter.mp ha
    exact bne_iff_ne.mp hmem.2 (h a hmem.1 (bne_iff_ne.mp hpk))

/-! ## Claim theorems for challenge validation -/

/-- Claim C1: when `acme_validate_challenge` runs on a processing challenge
with a usable authorization and validation succeeds, the challenge and its
authorization become `valid`, and the order becomes `ready` exactly when every
other authorization of the order (queried at that moment) already has status
`valid`; if some other authorization is not yet valid, the order is left
unchanged. -/
theorem acme_validate_challenge_valid_cascade
    (st : ChallengeValidationState) (expected : List Nat) (env : ValidationEnv) (now : Nat)
    (hstatus : st.challenge.status = AcmeStatus.processing)
    (husable : st.auth.usable = true)
    (hvalid : computeChallengeValid st.challenge expected env = true) :
    (acmeValidateChallenge true st expected env now).challenge.status = AcmeStatus.valid ∧
    (acmeValidateChallenge true st expected env now).auth.status = AcmeStatus.valid ∧
    ((∀ a ∈ st.orderAuths, a.pk ≠ st.auth.pk → a.status = AcmeStatus.valid) →
      (acmeValidateChallenge true st expected env now).order.status = AcmeStatus.ready) ∧
    ((¬ ∀ a ∈ st.orderAuths, a.pk ≠ st.auth.pk → a.status = AcmeStatus.valid) →
      (acmeValidateChallenge true st expected env now).order = st.order) ∧
    (st.order.status ≠ AcmeStatus.ready →
      ((acmeValidateChallenge true st expected env now).order.status = AcmeStatus.ready ↔
        ∀ a ∈ st.orderAuths, a.pk ≠ st.auth.pk → a.status = AcmeStatus.valid)) := by
  have hred : acmeValidateChallenge true st expected env now =
      { st with
        challenge := { st.challenge with status := AcmeStatus.valid, validated := some now }
        auth := { st.auth with status := AcmeStatus.valid }
        order :=
          if ((st.orderAuths.filter (fun a => a.status != AcmeStatus.valid)).filter
              (fun a => a.pk != st.auth.pk)).isEmpty then
            { st.order with status := AcmeStatus.ready }
          else st.order } := by
    simp [acmeValidateChallenge, hstatus, husable, hvalid]
  have hiff := blocking_empty_iff st.orderAuths st.auth.pk
  refine ⟨by rw [hred], by rw [hred], ?_, ?_, ?_⟩
  · intro hall
    rw [hred]
    simp only [if_pos (hiff.mpr hall)]
  · intro hall
    rw [hred]
    simp only [if_neg (fun hcontr => hall (hiff.mp hcontr))]
  · intro hready
    rw [hred]
    constructor
    · intro hord
      by_contra hall
      rw [if_neg (fun hcontr => hall (hiff.mp hcontr))] at hord
      exact hready hord
    · intro hall
      simp only [if_pos (hiff.mpr hall)]

/-- Claim C1 witness: a concrete run in which the single other authorization is
already valid, so the order becomes ready. -/
theorem acme_validate_challenge_valid_cascade_witness :
    (acmeValidateChallenge true
      { challenge := { status := AcmeStatus.processing, type := ChallengeType.dns01,
                       validated := none },
        auth := { pk := 1, status := AcmeStatus.pending, usable := true },
        order := { status := AcmeStatus.pending },
        orderAuths := [{ pk := 1, status := AcmeStatus.pending, usable := true },
                       { pk := 2, status := AcmeStatus.valid, usable := false }] }
      [1, 2] { httpFetch := HttpFetchResult.failure, dns01Result := true }
      7).order.status = AcmeStatus.ready := by
  have h := acme_validate_challenge_valid_cascade
    { challenge := { status := AcmeStatus.processing, type := ChallengeType.dns01,
                     validated := none },
      auth := { pk := 1, status := AcmeStatus.pending, usable := true },
      order := { status := AcmeStatus.pending },
      orderAuths := [{ pk := 1, status := AcmeStatus.pending, usable := true },
                     { pk := 2, status := AcmeStatus.valid, usable := false }] }
    [1, 2] { httpFetch := HttpFetchResult.failure, dns01Result := true } 7
    (by decide) (by decide) (by decide)
  exact h.2.2.1 (by decide)

/-- Claim C2: when `acme_validate_challenge` runs on a processing challenge
with a usable authorization and validation fails, challenge, authorization and
order all become `invalid` immediately, whatever the other authorizations of
the order look like. -/
theorem acme_validate_challenge_invalid_cascade
    (st : ChallengeValidationState) (expected : List Nat) (env : ValidationEnv) (now : Nat)
    (hstatus : st.challenge.status = AcmeStatus.processing)
    (husable : st.auth.usable = true)
    (hinvalid : computeChallengeValid st.challenge expected env = false) :
    (acmeValidateChallenge true st expected env now).challenge.status = AcmeStatus.invalid ∧
    (acmeValidateChallenge true st expected env now).auth.status = AcmeStatus.invalid ∧
    (acmeValidateChallenge true st expected env now).order.status = AcmeStatus.invalid := by
  simp [acmeValidateChallenge, hstatus, husable, hinvalid]

/-- Claim C2 witness: a concrete failed validation in which every other
authorization of the order is already valid, and the order still becomes
invalid. -/
theorem acme_validate_challenge_invalid_cascade_witness :
    (acmeValidateChallenge true
      { challenge := { status := AcmeStatus.processing, type := ChallengeType.dns01,
                       validated := none },
        auth := { pk := 1, status := AcmeStatus.pending, usable := true },
        order := { status := AcmeStatus.pending },
        orderAuths := [{ pk := 2, status := AcmeStatus.valid, usable := false }] }
      [1, 2] { httpFetch := HttpFetchResult.failure, dns01Result := false }
      7).order.status = AcmeStatus.invalid :=
  (acme_validate_challenge_invalid_cascade
    { challenge := { status := AcmeStatus.processing, type := ChallengeType.dns01,
                     validated := none },
      auth := { pk := 1, status := AcmeStatus.pending, usable := true },
      order := { status := AcmeStatus.pending },
      orderAuths := [{ pk := 2, status := AcmeStatus.valid, usable := false }] }
    [1, 2] { httpFetch := HttpFetchResult.failure, dns01Result := false } 7
    (by decide) (by decide) (by decide)).2.2

/-- Claim C3: an http-01 validation is judged valid exactly when the response
status is 200 and the body equals the expected bytes; since only
`len(expected) + 1` bytes are read and compared, a body that extends the
expected bytes by even one byte is always judged invalid. -/
theorem http01_validation_exact_body
    (c : AcmeChallenge) (expected : List Nat) (env : ValidationEnv) (s : Nat) (b : List Nat)
    (htype : c.type = ChallengeType.http01)
    (hfetch : env.httpFetch = HttpFetchResult.response s b) :
    (computeChallengeValid c expected env = true ↔ (s = 200 ∧ b = expected)) ∧
    (∀ x : Nat, http01Valid 200 (expected ++ [x]) expected = false) := by
  constructor
  · rw [computeChallengeValid, htype, hfetch]
    exact http01Valid_eq_true_iff s b expected
  · intro x
    have hne : expected ++ [x] ≠ expected := by
      intro hcontr
      have hlen := congrArg List.length hcontr
      simp at hlen
    by_contra hcontr
    have hb : http01Valid 200 (expected ++ [x]) expected = true := by
      revert hcontr
      cases http01Valid 200 (expected ++ [x]) expected <;> simp
    exact hne ((http01Valid_eq_true_iff 200 (expected ++ [x]) expected).mp hb).2

/-- Claim C3 witness: on a concrete challenge, a 200 response carrying exactly
the expected bytes is valid, and the overlong body is rejected. -/
theorem http01_validation_exact_body_witness :
    (computeChallengeValid
        { status := AcmeStatus.processing, type := ChallengeType.http01, validated := none }
        [10, 20]
        { httpFetch := HttpFetchResult.response 200 [10, 20], dns01Result := false } = true ↔
      (200 = 200 ∧ [10, 20] = [10, 20])) ∧
    (∀ x : Nat, http01Valid 200 ([10, 20] ++ [x]) [10, 20] = false) :=
  http01_validation_exact_body
    { status := AcmeStatus.processing, type := ChallengeType.http01, validated := none }
    [10, 20]
    { httpFetch := HttpFetchResult.response 200 [10, 20], dns01Result := false }
    200 [10, 20] (by decide) (by decide)

/-- Claim C9: a processing challenge with a usable authorization whose type is
neither http-01 nor dns-01 is treated as a failed validation: challenge,
authorization and order all transition to `invalid`. -/
theorem acme_validate_challenge_unsupported_type
    (st : ChallengeValidationState) (expected : List Nat) (env : ValidationEnv) (now : Nat)
    (htype : st.challenge.type = ChallengeType.tlsAlpn01)
    (hstatus : st.challenge.status = AcmeStatus.processing)
    (husable : st.auth.usable = true) :
    (acmeValidateChallenge true st expected env now).challenge.status = AcmeStatus.invalid ∧
    (acmeValidateChallenge true st expected env now).auth.status = AcmeStatus.invalid ∧
    (acmeValidateChallenge true st expected env now).order.status = AcmeStatus.invalid := by
  have hinvalid : computeChallengeValid st.challenge expected env = false := by
    rw [computeChallengeValid, htype]
  simp [acmeValidateChallenge, hstatus, husable, hinvalid]

/-- Claim C9 witness: a concrete tls-alpn-01 challenge in processing state with
a usable authorization invalidates challenge, authorization and order. -/
theorem acme_validate_challenge_unsupported_type_witness :
    (acmeValidateChallenge true
      { challenge := { status := AcmeStatus.processing, type := ChallengeType.tlsAlpn01,
                       validated := none },
        auth := { pk := 3, status := AcmeStatus.pending, usable := true },
        order := { status := AcmeStatus.pending },
        orderAuths := [] }
      [9] { httpFetch := HttpFetchResult.response 200 [9], dns01Result := true }
      4).challenge.status = AcmeStatus.invalid :=
  (acme_validate_challenge_unsupported_type
    { challenge := { status := AcmeStatus.processing, type := ChallengeType.tlsAlpn01,
                     validated := none },
      auth := { pk := 3, status := AcmeStatus.pending, usable := true },
      order := { status := AcmeStatus.pending },
      orderAuths := [] }
    [9] { httpFetch := HttpFetchResult.response 200 [9], dns01Result := true } 4
    (by decide) (by decide) (by decide)).1

/-! ## Profile extension defaults (`Profile._get_extensions`)

Extension dictionaries keyed by `x509.ObjectIdentifier` are embedded as
association lists with unique keys; `Oid` is the dotted OID string. -/

/-- A dotted object identifier string. -/
abbrev Oid := String

deriving instance DecidableEq for Except

/-- Python `dict.pop(key, None)`: remove the entry for `k`. -/
def dictPop {α : Type} (d : List (Oid × α)) (k : Oid) : List (Oid × α) :=
  d.filter (fun p => p.1 != k)

/-- Python `dict.setdefault(key, value)`: insert only if the key is absent. -/
def dictSetdefault {α : Type} (d : List (Oid × α)) (k : Oid) (v : α) : List (Oid × α) :=
  match d.lookup k with
  | some _ => d
  | none => d ++ [(k, v)]

/-- The loop body of `Profile._get_extensions`: a `None` profile value pops the
oid from the working set, any other value is inserted with `setdefault`. -/
def getExtensionsStep {α : Type} (acc : List (Oid × α)) (kv : Oid × Option α) :
    List (Oid × α) :=
  match kv.2 with
  | none => dictPop acc kv.1
  | some e => dictSetdefault acc kv.1 e

/-- `Profile._get_extensions` from `ca/django_ca/profiles.py`: iterate over the
profile's extension map and apply `getExtensionsStep` to the working set of
caller-supplied extensions, so values already in the working set win. -/
def getExtensions {α : Type} (profileExts : List (Oid × Option α))
    (working : List (Oid × α)) : List (Oid × α) :=
  profileExts.foldl getExtensionsStep working

theorem lookup_cons_ne {α : Type} (k k' : Oid) (v : α) (t : List (Oid × α)) (h : k' ≠ k) :
    ((k, v) :: t).lookup k' = t.lookup k' := by
  simp only [List.lookup]
  rw [show (k' == k) = false from beq_eq_false_iff_ne.mpr h]

theorem lookup_cons_eq {α : Type} (k : Oid) (v : α) (t : List (Oid × α)) :
    ((k, v) :: t).lookup k = some v := by
  simp only [List.lookup]
  rw [show (k == k) = true from beq_self_eq_true k]

theorem lookup_dictPop_self {α : Type} (d : List (Oid × α)) (k : Oid) :
    (dictPop d k).lookup k = none := by
  induction d with
  | nil => rfl
  | cons hd tl ih =>
    obtain ⟨k1, v1⟩ := hd
    by_cases hk : k1 = k
    · simpa [dictPop, hk] using ih
    · unfold dictPop at ih ⊢
      rw [List.filter_cons]
      rw [if_pos (by simpa using hk)]
      rw [lookup_cons_ne k1 k v1 _ (fun hcontr => hk hcontr.symm)]
      exact ih

theorem lookup_dictPop_other {α : Type} (d : List (Oid × α)) (k k' : Oid) (hne : k' ≠ k) :
    (dictPop d k).lookup k' = d.lookup k' := by
  induction d with
  | nil => rfl
  | cons hd tl ih =>
    obtain ⟨k1, v1⟩ := hd
    unfold dictPop at ih ⊢
    rw [List.filter_cons]
    by_cases hk : k1 = k
    · rw [if_neg (by simpa using hk)]
      rw [ih, lookup_cons_ne k1 k' v1 tl (fun hcontr => hne (hcontr.trans hk))]
    · rw [if_pos (by simpa using hk)]
      by_cases hk' : k' = k1
      · subst hk'
        rw [lookup_cons_eq, lookup_cons_eq]
      · rw [lookup_cons_ne k1 k' v1 _ hk', lookup_cons_ne k1 k' v1 tl hk']
        exact ih

theorem lookup_dictSetdefault_self {α : Type} (d : List (Oid × α)) (k : Oid) (v : α) :
    (dictSetdefault d k v).lookup k = (d.lookup k).or (some v) := by
  unfold dictSetdefault
  cases hd : d.lookup k with
  | some w => simp [hd]
  | none =>
    rw [List.lookup_append, hd, Option.none_or, Option.none_or]
    exact lookup_cons_eq k v []

theorem lookup_dictSetdefault_other {α : Type} (d : List (Oid × α)) (k k' : Oid) (v : α)
    (hne : k' ≠ k) :
    (dictSetdefault d k v).lookup k' = d.lookup k' := by
  unfold dictSetdefault
  cases hd : d.lookup k with
  | some w => rfl
  | none =>
    rw [List.lookup_append]
    rw [show ([(k, v)] : List (Oid × α)).lookup k' = none from lookup_cons_ne k k' v [] hne]
    cases d.lookup k' <;> rfl

theorem lookup_getExtensionsStep_other {α : Type} (acc : List (Oid × α))
    (kv : Oid × Option α) (k : Oid) (hne : kv.1 ≠ k) :
    (getExtensionsStep acc kv).lookup k = acc.lookup k := by
  obtain ⟨k1, v1⟩ := kv
  cases v1 with
  | none => exact lookup_dictPop_other acc k1 k (fun hcontr => hne hcontr.symm)
  | some e => exact lookup_dictSetdefault_other acc k1 k e (fun hcontr => hne hcontr.symm)

theorem getExtensions_lookup_of_not_mem {α : Type} (profileExts : List (Oid × Option α))
    (working : List (Oid × α)) (k : Oid) (h : ∀ kv ∈ profileExts, kv.1 ≠ k) :
    (getExtensions profileExts working).lookup k = working.lookup k := by
  induction profileExts generalizing working with
  | nil => rfl
  | cons hd tl ih =>
    have hstep : getExtensions (hd :: tl) working =
        getExtensions tl (getExtensionsStep working hd) := rfl
    rw [hstep, ih _ (fun kv hkv => h kv (List.mem_cons_of_mem hd hkv))]
    exact lookup_getExtensionsStep_other working hd k (h hd (List.mem_cons_self hd tl))

theorem getExtensions_lookup {α : Type} (profileExts : List (Oid × Option α))
    (working : List (Oid × α)) (k : Oid) (v : Option α)
    (hnd : (profileExts.map Prod.fst).Nodup) (hmem : (k, v) ∈ profileExts) :
    (getExtensions profileExts working).lookup k =
      match v with
      | none => none
      | some d => (working.lookup k).or (some d) := by
  obtain ⟨s, t, hst⟩ := List.append_of_mem hmem
  subst hst
  rw [List.map_append, List.map_cons] at hnd
  have hnds := List.nodup_append.mp hnd
  have hkt : k ∉ t.map Prod.fst := (List.nodup_cons.mp hnds.2.1).1
  have hks : k ∉ s.map Prod.fst := fun hcontr =>
    hnds.2.2 hcontr (List.mem_cons_self _ _)
  have hs : ∀ kv ∈ s, kv.1 ≠ k := by
    intro kv hkv hcontr
    exact hks (hcontr ▸ List.mem_map_of_mem Prod.fst hkv)
  have ht : ∀ kv ∈ t, kv.1 ≠ k := by
    intro kv hkv hcontr
    exact hkt (hcontr ▸ List.mem_map_of_mem Prod.fst hkv)
  have hsplit : getExtensions (s ++ (k, v) :: t) working =
      getExtensions t (getExtensionsStep (getExtensions s working) (k, v)) := by
    unfold getExtensions
    rw [List.foldl_append, List.foldl_cons]
  rw [hsplit, getExtensions_lookup_of_not_mem t _ k ht]
  cases v with
  | none => exact lookup_dictPop_self _ k
  | some d =>
    rw [show getExtensionsStep (getExtensions s working) (k, some d) =
        dictSetdefault (getExtensions s working) k d from rfl]
    rw [lookup_dictSetdefault_self, getExtensions_lookup_of_not_mem s working k hs]

/-- Claim C5: when applying a profile's extension defaults, a caller-supplied
value C for kind K always survives (never the profile default D), the profile
default D is used when the caller supplies nothing for K, and a kind the
profile explicitly unsets is absent when the caller supplies nothing for it. -/
theorem profile_extension_precedence {α : Type} (profileExts : List (Oid × Option α))
    (working : List (Oid × α)) (k : Oid) (v : Option α) (c d : α)
    (hnd : (profileExts.map Prod.fst).Nodup) (hmem : (k, v) ∈ profileExts) :
    (v = some d → working.lookup k = some c →
      (getExtensions profileExts working).lookup k = some c) ∧
    (v = some d → working.lookup k = none →
      (getExtensions profileExts working).lookup k = some d) ∧
    (v = none → working.lookup k = none →
      (getExtensions profileExts working).lookup k = none) := by
  have hchar := getExtensions_lookup profileExts working k v hnd hmem
  refine ⟨?_, ?_, ?_⟩
  · intro hv hw
    subst hv
    rw [hchar, hw]
    rfl
  · intro hv hw
    subst hv
    rw [hchar, hw]
    rfl
  · intro hv _
    subst hv
    exact hchar

/-- Claim C5 witness: with profile default 2 for oid "2.5.29.37" and caller
value 1 present, the caller value wins. -/
theorem profile_extension_precedence_witness :
    ((some 2 : Option Nat) = some 2 → ([("2.5.29.37", 1)] : List (Oid × Nat)).lookup "2.5.29.37" = some 1 →
      (getExtensions [("2.5.29.37", some 2)] [("2.5.29.37", 1)]).lookup "2.5.29.37" = some 1) ∧
    ((some 2 : Option Nat) = some 2 → ([("2.5.29.37", 1)] : List (Oid × Nat)).lookup "2.5.29.37" = none →
      (getExtensions [("2.5.29.37", some 2)] [("2.5.29.37", 1)]).lookup "2.5.29.37" = some 2) ∧
    ((some 2 : Option Nat) = none → ([("2.5.29.37", 1)] : List (Oid × Nat)).lookup "2.5.29.37" = none →
      (getExtensions [("2.5.29.37", some 2)] [("2.5.29.37", 1)]).lookup "2.5.29.37" = none) :=
  profile_extension_precedence [("2.5.29.37", some 2)] [("2.5.29.37", 1)]
    "2.5.29.37" (some 2) 1 2 (by decide) (by decide)

/-- Claim C10: a profile-level unset (a `None` value in the profile's
extension map) removes kind K from the working set even when the caller
supplied a value for K: the resolved working set never contains K. -/
theorem profile_unset_removes_caller_extension {α : Type}
    (profileExts : List (Oid × Option α)) (working : List (Oid × α)) (k : Oid)
    (hnd : (profileExts.map Prod.fst).Nodup) (hmem : (k, none) ∈ profileExts) :
    (getExtensions profileExts working).lookup k = none :=
  getExtensions_lookup profileExts working k none hnd hmem

/-- Claim C10 witness: the caller-supplied value 5 for oid "2.5.29.15" is
removed by the profile's explicit unset of that oid. -/
theorem profile_unset_removes_caller_extension_witness :
    (getExtensions [("2.5.29.15", (none : Option Nat))] [("2.5.29.15", 5)]).lookup
      "2.5.29.15" = none :=
  profile_unset_removes_caller_extension [("2.5.29.15", none)] [("2.5.29.15", 5)]
    "2.5.29.15" (by decide) (by decide)

/-! ## AuthorityInformationAccess merge (`Profile._update_authority_information_access`)

The function reads and writes only the AIA entry of the two extension
dictionaries, so it is embedded over those entries: `certSlot` is the working
set's AIA extension (if any) and `caSlot` the CA's. -/

/-- An `x509.AccessDescription`: access method OID (dotted string) and access
location. -/
structure AccessDescription where
  accessMethod : Oid
  accessLocation : String
deriving DecidableEq, Repr

/-- An AIA extension value: critical flag plus access description list. -/
structure AuthorityInformationAccess where
  critical : Bool
  value : List AccessDescription
deriving DecidableEq, Repr

/-- `AuthorityInformationAccessOID.OCSP`. -/
def ACCESS_METHOD_OCSP : Oid := "1.3.6.1.5.5.7.48.1"

/-- `AuthorityInformationAccessOID.CA_ISSUERS`. -/
def ACCESS_METHOD_CA_ISSUERS : Oid := "1.3.6.1.5.5.7.48.2"

/-- The code points of a string, used as the sort key: Python compares the
dotted OID strings lexicographically by code point. -/
def strKey (s : String) : List Nat := s.data.map Char.toNat

/-- The ordering `sorted(access_descriptions, key=lambda ad: ad.access_method.dotted_string)`
sorts by. -/
def accessDescriptionLe (a b : AccessDescription) : Prop :=
  strKey a.accessMethod ≤ strKey b.accessMethod

instance : DecidableRel accessDescriptionLe := fun a b =>
  inferInstanceAs (Decidable (strKey a.accessMethod ≤ strKey b.accessMethod))

instance : IsTotal AccessDescription accessDescriptionLe :=
  ⟨fun a b => le_total (strKey a.accessMethod) (strKey b.accessMethod)⟩

instance : IsTrans AccessDescription accessDescriptionLe :=
  ⟨fun _ _ _ h1 h2 => le_trans h1 h2⟩

/-- `Profile._update_authority_information_access` from
`ca/django_ca/profiles.py`. If the CA defines no AIA extension nothing
changes. Otherwise the criticality starts as the CA's and is overwritten by
the working set's AIA criticality if the working set has one; the CA's
CA-Issuers / OCSP access descriptions are appended only when the
corresponding flag is true and the working set does not already have an
access description with that method; the result is sorted by the access
method's dotted OID string and written back only if it is non-empty. -/
def updateAuthorityInformationAccess (certSlot caSlot : Option AuthorityInformationAccess)
    (addIssuerUrl addOcspUrl : Bool) : Option AuthorityInformationAccess :=
  match caSlot with
  | none => certSlot
  | some caAia =>
    let start : List AccessDescription × Bool × Bool × Bool :=
      match certSlot with
      | some certAia =>
        (certAia.value,
         certAia.value.any (fun ad => ad.accessMethod == ACCESS_METHOD_OCSP),
         certAia.value.any (fun ad => ad.accessMethod == ACCESS_METHOD_CA_ISSUERS),
         certAia.critical)
      | none => ([], false, false, caAia.critical)
    let accessDescriptions := start.1
    let hasOcsp := start.2.1
    let hasIssuer := start.2.2.1
    let critical := start.2.2.2
    let ads1 :=
      if addIssuerUrl && !hasIssuer then
        accessDescriptions ++ caAia.value.filter
          (fun ad => !(accessDescriptions.contains ad) &&
            ad.accessMethod == ACCESS_METHOD_CA_ISSUERS)
      else accessDescriptions
    let ads2 :=
      if addOcspUrl && !hasOcsp then
        ads1 ++ caAia.value.filter
          (fun ad => !(ads1.contains ad) && ad.accessMethod == ACCESS_METHOD_OCSP)
      else ads1
    let sortedAds := List.insertionSort accessDescriptionLe ads2
    if sortedAds.isEmpty then certSlot
    else some { critical := critical, value := sortedAds }

/-- Claim C4 counterexample: the CA's AIA extension is critical, the working
set already carries a non-critical AIA extension, and the CA's OCSP access
description is merged in; the merged extension keeps the working set's
criticality (false), not the CA's (true). -/
theorem aia_merge_critical_counterexample :
    updateAuthorityInformationAccess
        (some { critical := false,
                value := [{ accessMethod := ACCESS_METHOD_CA_ISSUERS,
                            accessLocation := "http://issuer.example" }] })
        (some { critical := true,
                value := [{ accessMethod := ACCESS_METHOD_OCSP,
                            accessLocation := "http://ocsp.example" }] })
        true true =
      some { critical := false,
             value := [{ accessMethod := ACCESS_METHOD_OCSP,
                         accessLocation := "http://ocsp.example" },
                       { accessMethod := ACCESS_METHOD_CA_ISSUERS,
                         accessLocation := "http://issuer.example" }] } ∧
    (updateAuthorityInformationAccess
        (some { critical := false,
                value := [{ accessMethod := ACCESS_METHOD_CA_ISSUERS,
                            accessLocation := "http://issuer.example" }] })
        (some { critical := true,
                value := [{ accessMethod := ACCESS_METHOD_OCSP,
                            accessLocation := "http://ocsp.example" }] })
        true true).map AuthorityInformationAccess.critical ≠ some true := by
  constructor
  · decide
  · decide

theorem aia_write_back_cases (slot : Option AuthorityInformationAccess) (c : Bool)
    (l : List AccessDescription) (result : AuthorityInformationAccess)
    (h : (if (List.insertionSort accessDescriptionLe l).isEmpty then slot
          else some { critical := c, value := List.insertionSort accessDescriptionLe l }) =
        some result) :
    (l = [] ∧ slot = some result) ∨
      result = { critical := c, value := List.insertionSort accessDescriptionLe l } := by
  by_cases he : (List.insertionSort accessDescriptionLe l).isEmpty = true
  · left
    refine ⟨?_, ?_⟩
    · have hnil := List.isEmpty_iff.mp he
      have hp := List.perm_insertionSort accessDescriptionLe l
      rw [hnil] at hp
      exact List.Perm.eq_nil hp.symm
    · rw [if_pos he] at h
      exact h
  · right
    rw [if_neg he] at h
    injection h with h2
    exact h2.symm

/-- Claim C4 (amended): whenever the CA defines an AIA extension and the merge
step produces an AIA extension, the access descriptions are sorted by the
access method's dotted OID string, and the critical flag equals the working
set's AIA criticality when the working set already had an AIA extension, and
the CA's criticality only otherwise. -/
theorem aia_merge_sorted_and_critical
    (certSlot : Option AuthorityInformationAccess) (caAia : AuthorityInformationAccess)
    (addIssuerUrl addOcspUrl : Bool) (result : AuthorityInformationAccess)
    (h : updateAuthorityInformationAccess certSlot (some caAia) addIssuerUrl addOcspUrl =
      some result) :
    List.Sorted accessDescriptionLe result.value ∧
    result.critical =
      (match certSlot with
       | some certAia => certAia.critical
       | none => caAia.critical) := by
  cases certSlot with
  | none =>
    simp only [updateAuthorityInformationAccess] at h
    rcases aia_write_back_cases _ _ _ _ h with ⟨hl, hslot⟩ | hres
    · exact absurd hslot (by simp)
    · subst hres
      exact ⟨List.sorted_insertionSort accessDescriptionLe _, rfl⟩
  | some certAia =>
    simp only [updateAuthorityInformationAccess] at h
    rcases aia_write_back_cases _ _ _ _ h with ⟨hl, hslot⟩ | hres
    · injection hslot with h2
      subst h2
      have hval : certAia.value = [] := by
        split at hl
        · have h1 := (List.append_eq_nil.mp hl).1
          split at h1
          · exact (List.append_eq_nil.mp h1).1
          · exact h1
        · split at hl
          · exact (List.append_eq_nil.mp hl).1
          · exact hl
      rw [hval]
      exact ⟨List.sorted_nil, rfl⟩
    · subst hres
      exact ⟨List.sorted_insertionSort accessDescriptionLe _, rfl⟩

/-- Claim C4 witness: with no AIA extension in the working set, the CA's lone
OCSP access description is copied, the output is sorted, and the criticality
is the CA's. -/
theorem aia_merge_sorted_and_critical_witness :
    List.Sorted accessDescriptionLe
      ({ critical := true,
         value := [{ accessMethod := ACCESS_METHOD_OCSP,
                     accessLocation := "http://ocsp.example" }] } :
        AuthorityInformationAccess).value ∧
    ({ critical := true,
       value := [{ accessMethod := ACCESS_METHOD_OCSP,
                   accessLocation := "http://ocsp.example" }] } :
      AuthorityInformationAccess).critical =
      (match (none : Option AuthorityInformationAccess) with
       | some certAia => certAia.critical
       | none => ({ critical := true,
                    value := [{ accessMethod := ACCESS_METHOD_OCSP,
                                accessLocation := "http://ocsp.example" }] } :
                   AuthorityInformationAccess).critical) :=
  aia_merge_sorted_and_critical none
    { critical := true,
      value := [{ accessMethod := ACCESS_METHOD_OCSP,
                  accessLocation := "http://ocsp.example" }] }
    false true
    { critical := true,
      value := [{ accessMethod := ACCESS_METHOD_OCSP,
                  accessLocation := "http://ocsp.example" }] }
    (by decide)

/-! ## Subject names and `merge_x509_names` -/

/-- One `x509.NameAttribute`: attribute type OID and string value. -/
structure NameAttribute where
  oid : Oid
  value : String
deriving DecidableEq, Repr

/-- `NameOID.COUNTRY_NAME`. -/
def OID_COUNTRY : Oid := "2.5.4.6"

/-- `NameOID.STATE_OR_PROVINCE_NAME`. -/
def OID_STATE_OR_PROVINCE : Oid := "2.5.4.8"

/-- `NameOID.LOCALITY_NAME`. -/
def OID_LOCALITY : Oid := "2.5.4.7"

/-- `NameOID.ORGANIZATION_NAME`. -/
def OID_ORGANIZATION : Oid := "2.5.4.10"

/-- `NameOID.ORGANIZATIONAL_UNIT_NAME`. -/
def OID_ORGANIZATIONAL_UNIT : Oid := "2.5.4.11"

/-- `NameOID.COMMON_NAME`. -/
def OID_COMMON_NAME : Oid := "2.5.4.3"

/-- `NameOID.EMAIL_ADDRESS`. -/
def OID_EMAIL_ADDRESS : Oid := "1.2.840.113549.1.9.1"

/-- Modelled from the spec: the fixed canonical attribute-type ordering
(`model_settings.CA_DEFAULT_NAME_ORDER`; the settings module is not under
`src/`). The spec names the relative order country, organization,
organizational unit, common name, email address; state/locality are placed
after country as in the spec's attribute-type list. -/
def CA_DEFAULT_NAME_ORDER : List Oid :=
  [OID_COUNTRY, OID_STATE_OR_PROVINCE, OID_LOCALITY, OID_ORGANIZATION,
   OID_ORGANIZATIONAL_UNIT, OID_COMMON_NAME, OID_EMAIL_ADDRESS]

/-- `x509.Name.get_attributes_for_oid`: the attributes of one type, in the
name's order. -/
def getAttributesForOid (n : List NameAttribute) (oid : Oid) : List NameAttribute :=
  n.filter (fun a => a.oid == oid)

/-- Position of an attribute type in the canonical ordering. -/
def canonicalRank (oid : Oid) : Nat := CA_DEFAULT_NAME_ORDER.indexOf oid

/-- Modelled from the spec: the per-type body of `merge_x509_names`
(`django_ca.utils`, not under `src/`). For one attribute type: the update's
values win entirely if present, except that for the repeatable
organizational-unit type the update's values are appended to the base's after
removing exact duplicates; with no update values the base's values are kept. -/
def mergeSegment (base update : List NameAttribute) (oid : Oid) : List NameAttribute :=
  let updateAttrs := getAttributesForOid update oid
  let baseAttrs := getAttributesForOid base oid
  if updateAttrs.isEmpty then baseAttrs
  else if oid == OID_ORGANIZATIONAL_UNIT then
    baseAttrs ++ updateAttrs.filter (fun a => !(baseAttrs.contains a))
  else updateAttrs

/-- Modelled from the spec: `merge_x509_names(base, update)` from
`django_ca.utils` (not under `src/`). Any attribute type outside the fixed
canonical ordering makes the merge fail with an `Unsortable name` error;
otherwise the output is assembled type by type in canonical order. -/
def mergeX509Names (base update : List NameAttribute) :
    Except String (List NameAttribute) :=
  if base.any (fun a => !(CA_DEFAULT_NAME_ORDER.contains a.oid)) then
    Except.error "Unsortable name"
  else if update.any (fun a => !(CA_DEFAULT_NAME_ORDER.contains a.oid)) then
    Except.error "Unsortable name"
  else
    Except.ok (CA_DEFAULT_NAME_ORDER.foldr
      (fun oid acc => mergeSegment base update oid ++ acc) [])

theorem getAttributesForOid_oid (n : List NameAttribute) (oid : Oid) :
    ∀ a ∈ getAttributesForOid n oid, a.oid = oid := by
  intro a ha
  have := List.mem_filter.mp ha
  exact beq_iff_eq.mp this.2

theorem mergeSegment_oid (base update : List NameAttribute) (oid : Oid) :
    ∀ a ∈ mergeSegment base update oid, a.oid = oid := by
  intro a ha
  simp only [mergeSegment] at ha
  by_cases h1 : (getAttributesForOid update oid).isEmpty = true
  · rw [if_pos h1] at ha
    exact getAttributesForOid_oid base oid a ha
  · rw [if_neg h1] at ha
    by_cases h2 : (oid == OID_ORGANIZATIONAL_UNIT) = true
    · rw [if_pos h2] at ha
      rcases List.mem_append.mp ha with hb | hu
      · exact getAttributesForOid_oid base oid a hb
      · exact getAttributesForOid_oid update oid a (List.mem_filter.mp hu).1
    · rw [if_neg h2] at ha
      exact getAttributesForOid_oid update oid a ha

theorem mem_foldr_segments (f : Oid → List NameAttribute) (b : NameAttribute) :
    ∀ (order : List Oid),
      b ∈ order.foldr (fun oid acc => f oid ++ acc) [] → ∃ o ∈ order, b ∈ f o := by
  intro order
  induction order with
  | nil => intro h; exact absurd h (List.not_mem_nil b)
  | cons hd tl ih =>
    intro h
    rcases List.mem_append.mp h with hhd | htl
    · exact ⟨hd, List.mem_cons_self hd tl, hhd⟩
    · obtain ⟨o, ho, hbo⟩ := ih htl
      exact ⟨o, List.mem_cons_of_mem hd ho, hbo⟩

theorem sorted_foldr_segments (f : Oid → List NameAttribute)
    (hf : ∀ o, ∀ a ∈ f o, a.oid = o) :
    ∀ (order : List Oid),
      order.Pairwise (fun x y => canonicalRank x ≤ canonicalRank y) →
      List.Sorted (fun a b : NameAttribute => canonicalRank a.oid ≤ canonicalRank b.oid)
        (order.foldr (fun oid acc => f oid ++ acc) []) := by
  intro order
  induction order with
  | nil => intro _; exact List.sorted_nil
  | cons hd tl ih =>
    intro hpw
    have hpw' := List.pairwise_cons.mp hpw
    refine List.pairwise_append.mpr ⟨?_, ih hpw'.2, ?_⟩
    · refine List.pairwise_of_forall_mem_list ?_
      intro a ha b hb
      rw [hf hd a ha, hf hd b hb]
    · intro a ha b hb
      obtain ⟨o, ho, hbo⟩ := mem_foldr_segments f b tl hb
      rw [hf hd a ha, hf o b hbo]
      exact hpw'.1 o ho

theorem perm_filter_eq_of_length_le_one {α : Type} [DecidableEq α] (l l' : List α)
    (p : α → Bool) (h : l.Perm l') (hlen : (l.filter p).length ≤ 1) :
    l.filter p = l'.filter p := by
  have hp := h.filter p
  match hl : l.filter p with
  | [] =>
    rw [hl] at hp
    exact (List.Perm.eq_nil hp.symm).symm
  | [a] =>
    rw [hl] at hp
    exact (List.perm_singleton.mp hp.symm).symm
  | a :: b :: t =>
    rw [hl] at hlen
    simp at hlen

theorem perm_any_eq {α : Type} (l l' : List α) (p : α → Bool) (h : l.Perm l') :
    l.any p = l'.any p := by
  rw [Bool.eq_iff_iff, List.any_eq_true, List.any_eq_true]
  constructor
  · rintro ⟨x, hx, hpx⟩
    exact ⟨x, h.subset hx, hpx⟩
  · rintro ⟨x, hx, hpx⟩
    exact ⟨x, h.symm.subset hx, hpx⟩

theorem foldr_segments_congr (f g : Oid → List NameAttribute)
    (h : ∀ o, f o = g o) :
    ∀ (order : List Oid),
      order.foldr (fun oid acc => f oid ++ acc) [] =
        order.foldr (fun oid acc => g oid ++ acc) [] := by
  intro order
  induction order with
  | nil => rfl
  | cons hd tl ih =>
    simp only [List.foldr_cons, ih, h hd]

/-- Claim C8 counterexample: the two base names hold the same organizational
unit attributes in a different order; both inputs use only attribute types of
the canonical ordering, yet the merged outputs differ, so permuting the input
attribute order can change the merged output. -/
theorem subject_merge_permutation_counterexample :
    List.Perm
      [NameAttribute.mk OID_ORGANIZATIONAL_UNIT "Unit A",
       NameAttribute.mk OID_ORGANIZATIONAL_UNIT "Unit B"]
      [NameAttribute.mk OID_ORGANIZATIONAL_UNIT "Unit B",
       NameAttribute.mk OID_ORGANIZATIONAL_UNIT "Unit A"] ∧
    mergeX509Names
        [NameAttribute.mk OID_ORGANIZATIONAL_UNIT "Unit A",
         NameAttribute.mk OID_ORGANIZATIONAL_UNIT "Unit B"]
        [NameAttribute.mk OID_COMMON_NAME "example.com"] ≠
      mergeX509Names
        [NameAttribute.mk OID_ORGANIZATIONAL_UNIT "Unit B",
         NameAttribute.mk OID_ORGANIZATIONAL_UNIT "Unit A"]
        [NameAttribute.mk OID_COMMON_NAME "example.com"] := by
  constructor
  · decide
  · decide

/-- Claim C8 (amended): a successful merge always lists attributes in the
fixed canonical type order; and when every attribute type occurs at most once
in each input (as in the repository's ordering test), permuting the attribute
order inside the base input or the update input never changes the merged
output. With repeated types (e.g. several organizational units) the values of
a type keep their input order, so permutations inside one type can reorder the
output. -/
theorem subject_merge_canonical_order_and_perm :
    (∀ (base update merged : List NameAttribute),
      mergeX509Names base update = Except.ok merged →
      List.Sorted (fun a b : NameAttribute => canonicalRank a.oid ≤ canonicalRank b.oid)
        merged) ∧
    (∀ (base base' update update' : List NameAttribute),
      base.Perm base' → update.Perm update' →
      (∀ oid, (getAttributesForOid base oid).length ≤ 1) →
      (∀ oid, (getAttributesForOid update oid).length ≤ 1) →
      mergeX509Names base update = mergeX509Names base' update') := by
  constructor
  · intro base update merged h
    unfold mergeX509Names at h
    split at h
    · exact absurd h (by simp)
    · split at h
      · exact absurd h (by simp)
      · injection h with h2
        subst h2
        exact sorted_foldr_segments (mergeSegment base update)
          (mergeSegment_oid base update) CA_DEFAULT_NAME_ORDER (by decide)
  · intro base base' update update' hb hu hb1 hu1
    have hseg : ∀ oid, mergeSegment base update oid = mergeSegment base' update' oid := by
      intro oid
      have hbf : getAttributesForOid base oid = getAttributesForOid base' oid :=
        perm_filter_eq_of_length_le_one base base' _ hb (hb1 oid)
      have huf : getAttributesForOid update oid = getAttributesForOid update' oid :=
        perm_filter_eq_of_length_le_one update update' _ hu (hu1 oid)
      simp only [mergeSegment, hbf, huf]
    unfold mergeX509Names
    rw [perm_any_eq base base' _ hb, perm_any_eq update update' _ hu]
    rw [foldr_segments_congr (mergeSegment base update) (mergeSegment base' update')
      hseg CA_DEFAULT_NAME_ORDER]

theorem getAttributesForOid_singleton_length (a : NameAttribute) :
    ∀ oid, (getAttributesForOid [a] oid).length ≤ 1 := by
  intro oid
  unfold getAttributesForOid
  rw [List.filter_cons]
  split <;> simp

/-- Claim C8 witness: a concrete successful merge is sorted in canonical
order, and a concrete pair of permuted one-attribute-per-type inputs merges to
the same output. -/
theorem subject_merge_canonical_order_and_perm_witness :
    List.Sorted (fun a b : NameAttribute => canonicalRank a.oid ≤ canonicalRank b.oid)
      [NameAttribute.mk OID_COUNTRY "AT", NameAttribute.mk OID_COMMON_NAME "example.com"] ∧
    mergeX509Names
        [NameAttribute.mk OID_COUNTRY "AT"] [NameAttribute.mk OID_COMMON_NAME "example.com"] =
      mergeX509Names
        [NameAttribute.mk OID_COUNTRY "AT"] [NameAttribute.mk OID_COMMON_NAME "example.com"] :=
  ⟨subject_merge_canonical_order_and_perm.1
      [NameAttribute.mk OID_COUNTRY "AT"] [NameAttribute.mk OID_COMMON_NAME "example.com"]
      [NameAttribute.mk OID_COUNTRY "AT", NameAttribute.mk OID_COMMON_NAME "example.com"]
      (by decide),
    subject_merge_canonical_order_and_perm.2
      [NameAttribute.mk OID_COUNTRY "AT"] [NameAttribute.mk OID_COUNTRY "AT"]
      [NameAttribute.mk OID_COMMON_NAME "example.com"]
      [NameAttribute.mk OID_COMMON_NAME "example.com"]
      (List.Perm.refl _) (List.Perm.refl _)
      (getAttributesForOid_singleton_length (NameAttribute.mk OID_COUNTRY "AT"))
      (getAttributesForOid_singleton_length (NameAttribute.mk OID_COMMON_NAME "example.com"))⟩

/-! ## Common name from SAN and the `create_cert` subject/extension pipeline -/

/-- The general-name forms relevant to `_update_cn_from_san`: only DNSName and
IPAddress entries can become a common name; other forms (URI, RFC822 name,
directory name) are skipped. -/
inductive GeneralName where
  | dnsName (v : String)
  | ipAddress (v : String)
  | uri (v : String)
  | rfc822Name (v : String)
  | directoryName (v : String)
deriving DecidableEq, Repr

/-- An extension value as far as the `create_cert` pipeline inspects it: a
SubjectAlternativeName-style list of general names, or content the pipeline
never looks into. -/
inductive ExtensionValue where
  | generalNames (entries : List GeneralName)
  | otherValue (tag : String)
deriving DecidableEq, Repr

/-- `ExtensionOID.SUBJECT_ALTERNATIVE_NAME`. -/
def OID_SUBJECT_ALTERNATIVE_NAME : Oid := "2.5.29.17"

/-- Modelled from the spec: the allow-list of caller-configurable extension
kinds (`constants.CONFIGURABLE_EXTENSION_KEYS`, not under `src/`): the
extension kinds of the data model except SubjectKeyIdentifier and
AuthorityKeyIdentifier, which are never caller-settable. -/
def CONFIGURABLE_EXTENSION_OIDS : List Oid :=
  ["1.3.6.1.5.5.7.1.1", "2.5.29.19", "2.5.29.31", "2.5.29.32", "2.5.29.37",
   "2.5.29.18", "2.5.29.15", "2.5.29.30", "1.3.6.1.5.5.7.48.1.5",
   OID_SUBJECT_ALTERNATIVE_NAME, "1.3.6.1.5.5.7.1.24"]

/-- `next((str(val.value) for val in san_ext.value if isinstance(val, cn_types)), None)`:
the first DNSName or IPAddress entry of the SAN, as a string. -/
def firstUsableSanValue (entries : List GeneralName) : Option String :=
  entries.findSome? (fun g =>
    match g with
    | GeneralName.dnsName v => some v
    | GeneralName.ipAddress v => some v
    | _ => none)

/-- Whether a subject has a Common Name attribute
(`subject.get_attributes_for_oid(NameOID.COMMON_NAME)` is non-empty). -/
def hasCommonName (n : List NameAttribute) : Bool :=
  !(getAttributesForOid n OID_COMMON_NAME).isEmpty

/-- `Profile._update_cn_from_san` from `ca/django_ca/profiles.py`: a subject
that already has a common name is returned unchanged; otherwise the first
DNSName/IPAddress entry of the SubjectAlternativeName extension (if any) is
merged in as the common name via `merge_x509_names`; with no usable entry the
subject is returned unchanged. -/
def updateCnFromSan (subject : Option (List NameAttribute))
    (extensions : List (Oid × ExtensionValue)) :
    Except String (Option (List NameAttribute)) :=
  if (match subject with | some s => hasCommonName s | none => false) then
    Except.ok subject
  else
    match extensions.lookup OID_SUBJECT_ALTERNATIVE_NAME with
    | some (ExtensionValue.generalNames entries) =>
      (match firstUsableSanValue entries with
       | some commonName =>
         (match subject with
          | none => Except.ok (some [NameAttribute.mk OID_COMMON_NAME commonName])
          | some s =>
            (mergeX509Names s [NameAttribute.mk OID_COMMON_NAME commonName]).map some)
       | none => Except.ok subject)
    | some (ExtensionValue.otherValue _) => Except.ok subject
    | none => Except.ok subject

/-- The subject merge step of `Profile.create_cert`: the caller subject is
merged into the profile subject when both exist; the profile subject alone, or
the caller subject alone (possibly absent), is used otherwise. -/
def mergeProfileSubject (profileSubject subject : Option (List NameAttribute)) :
    Except String (Option (List NameAttribute)) :=
  match profileSubject, subject with
  | some ps, some s => (mergeX509Names ps s).map some
  | some ps, none => Except.ok (some ps)
  | none, s => Except.ok s

/-- The resolution phase of `Profile.create_cert` (`ca/django_ca/profiles.py`):
reject caller extensions outside the configurable allow-list, apply the
profile's extension defaults to the caller extensions, merge the profile and
caller subjects, and derive a common name from the SAN extension. -/
def createCertResolve (profileSubject : Option (List NameAttribute))
    (profileExts : List (Oid × Option ExtensionValue))
    (subject : Option (List NameAttribute))
    (extensions : Option (List (Oid × ExtensionValue))) :
    Except String (Option (List NameAttribute) × List (Oid × ExtensionValue)) := do
  let callerExts := extensions.getD []
  if callerExts.any (fun kv => !(CONFIGURABLE_EXTENSION_OIDS.contains kv.1)) then
    throw "Extension cannot be set when creating a certificate."
  let working := getExtensions profileExts callerExts
  let subject1 ← mergeProfileSubject profileSubject subject
  let subject2 ← updateCnFromSan subject1 working
  pure (subject2, working)

/-- The identity checks of `Profile.create_cert` after subject resolution: a
missing subject fails, and a subject without a common name fails when the
working extension set has no SubjectAlternativeName extension at all. -/
def createCertFinalize (subject : Option (List NameAttribute))
    (working : List (Oid × ExtensionValue)) :
    Except String (List NameAttribute × List (Oid × ExtensionValue)) :=
  match subject with
  | none => Except.error "Cannot determine subject for certificate."
  | some s =>
    if !(hasCommonName s) && (working.lookup OID_SUBJECT_ALTERNATIVE_NAME).isNone then
      Except.error "Must name at least a CN or a subjectAlternativeName."
    else Except.ok (s, working)

/-- The subject/extension pipeline of `Profile.create_cert`: resolution
followed by the subject identity checks; the surviving pair is what the
signing step receives. -/
def createCertPipeline (profileSubject : Option (List NameAttribute))
    (profileExts : List (Oid × Option ExtensionValue))
    (subject : Option (List NameAttribute))
    (extensions : Option (List (Oid × ExtensionValue))) :
    Except String (List NameAttribute × List (Oid × ExtensionValue)) := do
  let resolved ← createCertResolve profileSubject profileExts subject extensions
  createCertFinalize resolved.1 resolved.2

/-- Whether an `Except` value is an error. -/
def isError {α : Type} (e : Except String α) : Bool :=
  match e with
  | Except.error _ => true
  | Except.ok _ => false

/-- Claim C7 counterexample: the caller subject has no common name and the
SubjectAlternativeName extension contains only a URI entry, from which no
common name can be derived; `create_cert` nevertheless passes its identity
checks and hands the pair on to signing instead of failing. -/
theorem create_cert_no_cn_unusable_san_counterexample :
    createCertPipeline none []
        (some [NameAttribute.mk OID_COUNTRY "AT"])
        (some [(OID_SUBJECT_ALTERNATIVE_NAME,
          ExtensionValue.generalNames [GeneralName.uri "https://example.com/page"])]) =
      Except.ok ([NameAttribute.mk OID_COUNTRY "AT"],
        [(OID_SUBJECT_ALTERNATIVE_NAME,
          ExtensionValue.generalNames [GeneralName.uri "https://example.com/page"])]) ∧
    hasCommonName [NameAttribute.mk OID_COUNTRY "AT"] = false ∧
    firstUsableSanValue [GeneralName.uri "https://example.com/page"] = none := by
  refine ⟨by decide, by decide, by decide⟩

/-- Claim C7 (amended): once subject resolution has succeeded, the pipeline
fails (with a missing-subject error) precisely when the resolved subject is
absent, or has no common name while the working extension set has no
SubjectAlternativeName extension at all; a present SAN extension without any
usable entry does not trigger the failure. -/
theorem create_cert_missing_identity_check
    (profileSubject : Option (List NameAttribute))
    (profileExts : List (Oid × Option ExtensionValue))
    (subject : Option (List NameAttribute))
    (extensions : Option (List (Oid × ExtensionValue)))
    (subj : Option (List NameAttribute)) (working : List (Oid × ExtensionValue))
    (h : createCertResolve profileSubject profileExts subject extensions =
      Except.ok (subj, working)) :
    isError (createCertPipeline profileSubject profileExts subject extensions) = true ↔
      (subj = none ∨
        (∃ n, subj = some n ∧ hasCommonName n = false ∧
          working.lookup OID_SUBJECT_ALTERNATIVE_NAME = none)) := by
  have hpipe : createCertPipeline profileSubject profileExts subject extensions =
      createCertFinalize subj working := by
    unfold createCertPipeline
    rw [h]
    rfl
  rw [hpipe]
  cases subj with
  | none =>
    simp [createCertFinalize, isError]
  | some n =>
    by_cases hc : (!(hasCommonName n) &&
        (working.lookup OID_SUBJECT_ALTERNATIVE_NAME).isNone) = true
    · rw [show createCertFinalize (some n) working =
          Except.error "Must name at least a CN or a subjectAlternativeName." from by
        simp [createCertFinalize, hc]]
      rw [Bool.and_eq_true] at hc
      constructor
      · intro _
        refine Or.inr ⟨n, rfl, ?_, ?_⟩
        · cases hcn : hasCommonName n
          · rfl
          · rw [hcn] at hc
            exact absurd hc.1 (by simp)
        · exact Option.isNone_iff_eq_none.mp hc.2
      · intro _
        rfl
    · rw [show createCertFinalize (some n) working = Except.ok (n, working) from by
        simp only [createCertFinalize]
        rw [if_neg (by simpa using hc)]]
      constructor
      · intro hcontr
        exact absurd hcontr (by simp [isError])
      · rintro (hnone | ⟨m, hm, hcn, hsan⟩)
        · exact absurd hnone (by simp)
        · injection hm with hm2
          subst hm2
          exfalso
          apply hc
          rw [Bool.and_eq_true]
          refine ⟨by rw [hcn]; rfl, ?_⟩
          rw [hsan]
          rfl

/-- Claim C7 witness: with a caller subject that already carries a common name
and no extensions, resolution succeeds and the identity check does not fire. -/
theorem create_cert_missing_identity_check_witness :
    isError (createCertPipeline none []
        (some [NameAttribute.mk OID_COMMON_NAME "example.com"]) none) = true ↔
      ((some [NameAttribute.mk OID_COMMON_NAME "example.com"] :
          Option (List NameAttribute)) = none ∨
        (∃ n, (some [NameAttribute.mk OID_COMMON_NAME "example.com"] :
            Option (List NameAttribute)) = some n ∧ hasCommonName n = false ∧
          ([] : List (Oid × ExtensionValue)).lookup OID_SUBJECT_ALTERNATIVE_NAME = none)) :=
  create_cert_missing_identity_check none [] (some [NameAttribute.mk OID_COMMON_NAME "example.com"])
    none (some [NameAttribute.mk OID_COMMON_NAME "example.com"]) [] (by decide)

/-! ## ACME account update -/

/-- The ACME account fields touched by an account update. -/
structure AcmeAccount where
  status : AcmeStatus
  contact : List String
  termsOfServiceAgreed : Bool
deriving DecidableEq, Repr

/-- The fields of an ACME account-update request body (`acme.messages.Registration`)
that the update view reads. -/
structure AcmeUpdateMessage where
  status : Option String
  contact : Option (List String)
  termsOfServiceAgreed : Option Bool
deriving DecidableEq, Repr

/-- The response of the account-update view: the updated account, or an RFC
8555 `Malformed` problem. -/
inductive AcmeUpdateResult where
  | ok (account : AcmeAccount)
  | malformed (message : String)
deriving DecidableEq, Repr

/-- Modelled from the spec: the ACME account-update view
(`django_ca.acme.views.AcmeUpdateAccount`, not under `src/`). Where the spec's
account-update description (a request combining deactivation with a contact
change is rejected as Malformed) conflicts with the repository's own tests
under `src/` (`test_deactivate_with_email` asserts HTTP 200 with the account
deactivated and the contact unchanged; `test_malformed` asserts Malformed only
for a request that updates nothing), the tests are followed as the
authoritative record of the code's behavior: a requested deactivation is
processed first and ignores any contact change, otherwise a contact change is
applied, otherwise an agreement to the terms of service is recorded, and a
request carrying none of these is rejected as Malformed. -/
def updateAccount (account : AcmeAccount) (message : AcmeUpdateMessage) : AcmeUpdateResult :=
  if message.status = some "deactivated" then
    AcmeUpdateResult.ok { account with status := AcmeStatus.deactivated }
  else
    match message.contact with
    | some contacts => AcmeUpdateResult.ok { account with contact := contacts }
    | none =>
      match message.termsOfServiceAgreed with
      | some agreed => AcmeUpdateResult.ok { account with termsOfServiceAgreed := agreed }
      | none => AcmeUpdateResult.malformed "Only contact information can be updated."

/-- Claim C6 counterexample: an update request combining deactivation with a
contact change is not rejected as Malformed and does not leave the account
unchanged: it is answered with the account deactivated (contact unchanged),
exactly as the repository's `test_deactivate_with_email` asserts. -/
theorem account_update_deactivate_with_contact_counterexample :
    updateAccount
        { status := AcmeStatus.valid, contact := ["mailto:one@example.com"],
          termsOfServiceAgreed := true }
        { status := some "deactivated",
          contact := some ["mailto:user.updated@example.com"],
          termsOfServiceAgreed := none } =
      AcmeUpdateResult.ok
        { status := AcmeStatus.deactivated, contact := ["mailto:one@example.com"],
          termsOfServiceAgreed := true } ∧
    ({ status := AcmeStatus.deactivated, contact := ["mailto:one@example.com"],
       termsOfServiceAgreed := true } : AcmeAccount) ≠
      { status := AcmeStatus.valid, contact := ["mailto:one@example.com"],
        termsOfServiceAgreed := true } := by
  refine ⟨by decide, by decide⟩

/-- Claim C6 (amended): an account-update request whose status field requests
deactivation is processed as a pure deactivation: the account's status becomes
deactivated and its contact information and terms-of-service agreement are
left unchanged, whatever contact change the request also carries; it is never
answered with a Malformed problem. -/
theorem account_update_deactivation_ignores_contact
    (account : AcmeAccount) (message : AcmeUpdateMessage)
    (h : message.status = some "deactivated") :
    updateAccount account message =
      AcmeUpdateResult.ok { account with status := AcmeStatus.deactivated } := by
  unfold updateAccount
  rw [if_pos h]

/-- Claim C6 (amended) witness: a concrete combined request is processed as a
pure deactivation. -/
theorem account_update_deactivation_ignores_contact_witness :
    updateAccount
        { status := AcmeStatus.valid, contact := ["mailto:one@example.com"],
          termsOfServiceAgreed := false }
        { status := some "deactivated", contact := some ["mailto:two@example.com"],
          termsOfServiceAgreed := some true } =
      AcmeUpdateResult.ok
        { status := AcmeStatus.deactivated, contact := ["mailto:one@example.com"],
          termsOfServiceAgreed := false } :=
  account_update_deactivation_ignores_contact
    { status := AcmeStatus.valid, contact := ["mailto:one@example.com"],
      termsOfServiceAgreed := false }
    { status := some "deactivated", contact := some ["mailto:two@example.com"],
      termsOfServiceAgreed := some true }
    (by decide)
